import Mathlib

/-!
# Verification of the scrapalyzer sensor/orchestrator core

Shallow embedding of the repository's detection framework:
`analyzer.py` (the `WebAnalyzer` orchestrator) and the sensors under
`src/sensors/` (`captcha_sensor.py`, `js_sensor.py`, `antibot_sensor.py`,
`lanaguage_sensor.py`, `api_sensor.py`, `auth_sensor.py`,
`mobile_sensor.py`, `base_sensor.py`).

Modelling conventions:
* Python floats that hold confidence scores are modelled as exact
  rationals (`ℚ`); every confidence occurring in the code is a multiple
  of 1/10, so no binary floating-point rounding is observable and
  `round(x, 2)` never meets a tie (hence Python's round-half-to-even
  agrees with Mathlib's `round` on all reachable values).
* Python dicts with string keys are modelled as association lists
  (`List (String × String)` etc.) with distinct keys and insertion
  order; `k in d` is key membership, `d[k]` is a fallible lookup
  (`Except` models the `KeyError`), `d.get k default` is total lookup.
* An HTML body is modelled at the level of the parsed tree
  (BeautifulSoup's output): `Node`/`List Node`.  Detectors that run
  regexes over the *raw* text do so over the serialisation
  `Html.render` of the tree (for the page bodies considered in the
  claims the BeautifulSoup round trip is the identity on the parts the
  regexes look at).
* Fallible Python code (uncaught exceptions) is modelled with
  `Except String`; `try/except` blocks become handling of the
  `.error` case.
-/

/-! ## String helpers (literal-pattern regex semantics) -/

/-- `leadsWith pat s`: `pat` is an initial segment of `s`. -/
def leadsWith : List Char → List Char → Bool
  | [], _ => true
  | _ :: _, [] => false
  | p :: ps, c :: cs => p == c && leadsWith ps cs

/-- `hasSub pat s`: `pat` occurs contiguously inside `s`
(the semantics of `re.search` on a literal pattern, and of Python's
`pat in s`). -/
def hasSub (pat : List Char) : List Char → Bool
  | [] => pat.isEmpty
  | c :: cs => leadsWith pat (c :: cs) || hasSub pat cs

/-- Case-sensitive substring test on strings. -/
def substrOf (pat s : String) : Bool := hasSub pat.toList s.toList

/-- Case-insensitive substring test (a literal pattern under `re.I`). -/
def substrCI (pat s : String) : Bool :=
  substrOf pat.toLower s.toLower

/-- `patLeads pat s`: `pat` matches a prefix of `s`, where the regex
metacharacter `.` in `pat` matches any single character (used for the
mobile-subdomain patterns `m.`, `mobile.`, `touch.`). -/
def patLeads : List Char → List Char → Bool
  | [], _ => true
  | _ :: _, [] => false
  | p :: ps, c :: cs => (p == '.' || p == c) && patLeads ps cs

/-! ## Python dict primitives over association lists -/

/-- `k in d` for a Python dict (exact, case-sensitive key equality). -/
def dictHasKey (d : List (String × String)) (k : String) : Bool :=
  d.any (fun kv => kv.1 == k)

/-- `d.get(k, default)`. -/
def dictGetD (d : List (String × String)) (k dflt : String) : String :=
  match d.find? (fun kv => kv.1 == k) with
  | some kv => kv.2
  | none => dflt

/-- `d[k]` — raises `KeyError` when the key is absent. -/
def dictGetE (d : List (String × String)) (k : String) : Except String String :=
  match d.find? (fun kv => kv.1 == k) with
  | some kv => .ok kv.2
  | none => .error ("KeyError: " ++ k)

/-- `d[k] = v` on a Python dict: overwrite in place if the key exists,
otherwise append at the end (insertion order). -/
def dictSet (d : List (String × String)) (k v : String) : List (String × String) :=
  if dictHasKey d k then
    d.map (fun kv => if kv.1 == k then (kv.1, v) else kv)
  else d ++ [(k, v)]

/-! ## HTML document model (the parsed tree BeautifulSoup produces) -/

/-- A node of the parsed HTML tree. -/
inductive Node where
  | elem (tag : String) (attrs : List (String × String)) (children : List Node)
  | textNode (s : String)

/-- A document is the list of top-level nodes. -/
abbrev Html := List Node

mutual
/-- All nodes of the subtree rooted at a node, in document (pre)order. -/
def Node.descendants : Node → List Node
  | .textNode s => [.textNode s]
  | .elem t a cs => .elem t a cs :: Node.descendantsList cs

/-- All nodes of a forest, in document order. -/
def Node.descendantsList : List Node → List Node
  | [] => []
  | n :: ns => Node.descendants n ++ Node.descendantsList ns
end

mutual
/-- The concatenated text of a subtree (BeautifulSoup's `.text`). -/
def Node.innerText : Node → String
  | .textNode s => s
  | .elem _ _ cs => Node.innerTextList cs

/-- The concatenated text of a forest. -/
def Node.innerTextList : List Node → String
  | [] => ""
  | n :: ns => Node.innerText n ++ Node.innerTextList ns
end

/-- Attribute lookup on a node (`tag.get(name)`); text nodes have none. -/
def Node.attr : Node → String → Option String
  | .textNode _, _ => none
  | .elem _ attrs _, name =>
    match attrs.find? (fun kv => kv.1 == name) with
    | some kv => some kv.2
    | none => none

/-- `tag.get(name, dflt)`. -/
def Node.attrD (n : Node) (name dflt : String) : String :=
  match n.attr name with
  | some v => v
  | none => dflt

/-- Is this node an element (BeautifulSoup `Tag`)? -/
def Node.isElem : Node → Bool
  | .elem _ _ _ => true
  | .textNode _ => false

/-- The node's tag name (`""` for text nodes). -/
def Node.tagName : Node → String
  | .elem t _ _ => t
  | .textNode _ => ""

/-- `soup.find_all(pred)`: all element descendants satisfying `pred`,
in document order. -/
def findAll (doc : Html) (p : Node → Bool) : List Node :=
  (Node.descendantsList doc).filter (fun n => n.isElem && p n)

/-- `soup.find(pred)`: the first matching element, if any. -/
def findFirst (doc : Html) (p : Node → Bool) : Option Node :=
  (findAll doc p).head?

/-- The CSS classes of a node: its `class` attribute split on spaces. -/
def Node.classes (n : Node) : List String :=
  ((n.attrD "class" "").splitOn " ").filter (fun c => ¬ c.isEmpty)

/-- BeautifulSoup's `class_=re.compile(pat)` field on literal patterns:
some individual class of the node matches the pattern. -/
def Node.classMatches (n : Node) (pats : List String) (ci : Bool) : Bool :=
  n.classes.any (fun c => pats.any (fun p =>
    if ci then substrCI p c else substrOf p c))

/-- `tag_name=..., attr=re.compile(pat)` matcher: the node has the tag,
has the attribute, and its value matches the (literal) pattern. -/
def Node.tagAttrMatches (n : Node) (tag attrName : String)
    (pats : List String) (ci : Bool) : Bool :=
  n.tagName == tag &&
    match n.attr attrName with
    | some v => pats.any (fun p => if ci then substrCI p v else substrOf p v)
    | none => false

/-- `attr=value` exact-match used e.g. by `soup.find('meta', {'name': v})`. -/
def Node.tagAttrEq (n : Node) (tag attrName value : String) : Bool :=
  n.tagName == tag && n.attr attrName == some value

mutual
/-- Serialisation of a node back to markup text; stands in for the raw
response body when a sensor regex-searches the unparsed string. -/
def Node.render : Node → String
  | .textNode s => s
  | .elem t attrs cs =>
    "<" ++ t ++ String.join (attrs.map (fun kv => " " ++ kv.1 ++ "=\x22" ++ kv.2 ++ "\x22"))
      ++ ">" ++ Node.renderList cs ++ "</" ++ t ++ ">"

/-- Serialisation of a forest. -/
def Node.renderList : List Node → String
  | [] => ""
  | n :: ns => Node.render n ++ Node.renderList ns
end

/-- Serialisation of a document. -/
def Html.render (doc : Html) : String := Node.renderList doc

/-- `patSub pat s`: the pattern occurs inside `s`, where `.` in the
pattern matches any character (`re.search` on patterns such as
`www.google.com/recaptcha` or `apps.apple.com` that contain regex
dots). -/
def patSub (pat : List Char) : List Char → Bool
  | [] => pat.isEmpty
  | c :: cs => patLeads pat (c :: cs) || patSub pat cs

/-- `tag_name=..., attr=re.compile(pat)` matcher with regex-dot
semantics. -/
def Node.tagAttrMatchesRe (n : Node) (tag attrName : String)
    (pats : List String) (ci : Bool) : Bool :=
  n.tagName == tag &&
    match n.attr attrName with
    | some v => pats.any (fun p =>
        if ci then patSub p.toLower.toList v.toLower.toList
        else patSub p.toList v.toList)
    | none => false

/-! ## Shared response model and numeric helpers -/

/-- Insertion into a Python `set`, modelled as an insertion-ordered
deduplicated list. -/
def setAdd (l : List String) (x : String) : List String :=
  if l.contains x then l else l ++ [x]

/-- Python's `round(x, 2)` on the rationals.  All reachable confidence
values are multiples of 1/10 divided by a count, so the half-to-even
tie rule of Python never fires and `round` (half away from zero on
ties) agrees with it on every value this development evaluates. -/
def round2 (q : ℚ) : ℚ := (round (q * 100) : ℤ) / 100

/-- The dict `response_data` the orchestrator builds
(analyzer.py lines 71–76) and hands to every sensor:
`{'status_code': …, 'headers': …, 'text': …, 'url': …}`.
The body is carried as the parsed tree (see the module comment). -/
structure RawResp where
  status_code : Int
  headers : List (String × String)
  text : Html
  url : String

/-- Python `repr` of a headers dict (values are strings). -/
def pyReprHeaders (hs : List (String × String)) : String :=
  "\x7b" ++ String.intercalate ", "
    (hs.map (fun kv => "'" ++ kv.1 ++ "': '" ++ kv.2 ++ "'")) ++ "\x7d"

/-- `str(response_data)`: the Python repr of the dict.  Sensors that
fall back to `content = str(response)` (captcha_sensor.py line 45,
js_sensor.py line 36) regex-search this string. -/
def RawResp.pyRepr (r : RawResp) : String :=
  "\x7b'status_code': " ++ toString r.status_code
    ++ ", 'headers': " ++ pyReprHeaders r.headers
    ++ ", 'text': '" ++ Html.render r.text
    ++ "', 'url': '" ++ r.url ++ "'\x7d"

/-! ## AntiBotSensor (src/sensors/antibot_sensor.py)

`detect` reads the response exclusively through `hasattr`/attribute
access (`response.headers`, `response.status_code`, `response.text`).
The embedding therefore takes each attribute as an `Option`: `none`
models `hasattr(response, …) == False`.  A Python dict exposes none of
these attributes, so the orchestrator's `response_data` dict maps to
three `none`s. -/

namespace AntiBotSensor

/-- A value of `antibot_patterns['headers']`: a protection name, a list
of vendor substrings, or `None`. -/
inductive HeaderProtection where
  | name (s : String)
  | vendors (l : List String)
  | noneVal

/-- `antibot_patterns['headers']` from `__init__`. -/
def header_patterns : List (String × HeaderProtection) :=
  [("cf-ray", .name "Cloudflare"),
   ("server", .vendors ["cloudflare", "akamai", "incapsula"]),
   ("x-bot-protection", .noneVal),
   ("x-fw-protection", .noneVal)]

/-- `antibot_patterns['response_codes']`. -/
def response_codes : List (Int × String) :=
  [(403, "Forbidden"), (429, "Too Many Requests"), (503, "Service Unavailable")]

/-- `antibot_patterns['content_patterns']`. -/
def content_patterns : List String :=
  ["automated access", "bot detected", "suspicious activity",
   "access denied", "rate limit exceeded", "ip blocked"]

/-- The result dict of `AntiBotSensor.detect`. -/
structure Result where
  has_antibot : Bool
  protection_type : List String
  confidence : ℚ
  details : List String
deriving DecidableEq, Repr

/-- The initial result (antibot_sensor.py lines 43–48). -/
def initResult : Result := ⟨false, [], 0, []⟩

/-- Header tier (lines 50–66): only runs when `response.headers`
exists.  Note `confidence` is *assigned* 0.9, not maxed. -/
def checkHeaders (headers : List (String × String)) (r : Result) : Result :=
  header_patterns.foldl (fun r hp =>
    if dictHasKey headers hp.1 then
      match hp.2 with
      | .vendors ps =>
        ps.foldl (fun r p =>
          if substrCI p (dictGetD headers hp.1 "") then
            { r with has_antibot := true,
                     protection_type := r.protection_type ++ [p],
                     confidence := 0.9,
                     details := r.details ++ ["Found " ++ p ++ " protection header"] }
          else r) r
      | .name p =>
        { r with has_antibot := true,
                 protection_type := r.protection_type ++ [p],
                 confidence := 0.9,
                 details := r.details ++ ["Found " ++ p ++ " protection header"] }
      | .noneVal => r
    else r) r

/-- Status tier (lines 68–77): `confidence` assigned 0.8. -/
def checkStatus (status : Int) (r : Result) : Result :=
  match response_codes.find? (fun kv => kv.1 == status) with
  | some kv =>
    { r with has_antibot := true,
             protection_type := r.protection_type ++ ["Status " ++ toString status],
             confidence := 0.8,
             details := r.details ++
               ["Response code " ++ toString status ++ ": " ++ kv.2] }
  | none => r

/-- Content tier (lines 79–87): `confidence` maxed with 0.7. -/
def checkContent (text : String) (r : Result) : Result :=
  content_patterns.foldl (fun r pat =>
    if substrCI pat text.toLower then
      { r with has_antibot := true,
               protection_type := r.protection_type ++ ["Content Protection"],
               confidence := max r.confidence 0.7,
               details := r.details ++ ["Found anti-bot message: " ++ pat] }
    else r) r

/-- `AntiBotSensor.detect` (lines 32–89).  Each tier is guarded by
`hasattr(response, attr)`. -/
def detect (attrHeaders : Option (List (String × String)))
    (attrStatus : Option Int) (attrText : Option String) : Result :=
  let r := initResult
  let r := match attrHeaders with
           | some hs => checkHeaders hs r
           | none => r
  let r := match attrStatus with
           | some sc => checkStatus sc r
           | none => r
  match attrText with
  | some t => checkContent t r
  | none => r

/-- The sensor as the orchestrator invokes it (analyzer.py line 87):
the argument is the `response_data` dict, which has no `headers`,
`status_code` or `text` *attributes*, so all three `hasattr` guards
are false.  `detect` has no failure path, hence always `.ok`. -/
def detectAsOrchestrated (_r : RawResp) : Except String Result :=
  .ok (detect none none none)

end AntiBotSensor

/-! ## CaptchaSensor (src/sensors/captcha_sensor.py)

When invoked by the orchestrator the argument is the `response_data`
dict; `hasattr(response, 'text')` is false, so
`content = str(response)` (the dict repr, `RawResp.pyRepr`) and
`BeautifulSoup(content)` recovers exactly the tags serialised inside
the `'text'` entry (headers and url carry no markup in the inputs
considered), i.e. the tree `r.text`. -/

namespace CaptchaSensor

/-- The non-generic entries of `captcha_patterns`, in dict order:
`(type, classes, scripts)`. -/
def vendor_patterns : List (String × List String × List String) :=
  [("recaptcha", ["g-recaptcha", "recaptcha"],
    ["www.google.com/recaptcha", "recaptcha.net"]),
   ("hcaptcha", ["h-captcha"], ["hcaptcha.com"])]

/-- `captcha_patterns['generic']['keywords']`. -/
def generic_keywords : List String :=
  ["captcha", "verify human", "prove you are human"]

/-- The result dict of `CaptchaSensor.detect`. -/
structure Result where
  has_captcha : Bool
  captcha_type : Option String
  confidence : ℚ
  details : List String
deriving DecidableEq, Repr

/-- Initial result (lines 49–54). -/
def initResult : Result := ⟨false, none, 0, []⟩

/-- One vendor block (lines 58–76): class matches set the type only if
none is recorded (confidence 0.9); script matches overwrite the type
unconditionally (confidence 1.0). -/
def vendorPass (doc : Html) (r : Result)
    (entry : String × List String × List String) : Result :=
  let ctype := entry.1
  let r := entry.2.1.foldl (fun r class_name =>
    if (findAll doc (fun n => n.classMatches [class_name] true)).isEmpty then r
    else
      let r := { r with has_captcha := true }
      let r := if r.captcha_type = none then
                 { r with captcha_type := some ctype, confidence := 0.9 }
               else r
      { r with details := r.details ++ ["Found " ++ class_name ++ " element"] }) r
  entry.2.2.foldl (fun r script_pattern =>
    if (findAll doc (fun n =>
          n.tagAttrMatchesRe "script" "src" [script_pattern] true)).isEmpty then r
    else
      { r with has_captcha := true, captcha_type := some ctype,
               confidence := 1.0,
               details := r.details ++ ["Found " ++ script_pattern ++ " script"] }) r

/-- Generic block (lines 78–86): keyword search over the raw content
string; sets type `unknown` (0.7) only if no type is recorded yet. -/
def genericPass (content : String) (r : Result) : Result :=
  generic_keywords.foldl (fun r keyword =>
    if substrCI keyword content then
      let r := { r with has_captcha := true }
      let r := if r.captcha_type = none then
                 { r with captcha_type := some "unknown", confidence := 0.7 }
               else r
      { r with details := r.details ++ ["Found keyword: " ++ keyword] }
    else r) r

/-- The body of `detect` (lines 41–88); it is wrapped in `try/except`
in the source, but no step of the body can raise. -/
def detectBody (content : String) (doc : Html) : Result :=
  genericPass content (vendor_patterns.foldl (vendorPass doc) initResult)

/-- The sensor as the orchestrator invokes it: dict argument, so the
scanned string is the dict repr and the parsed tags are those of the
`text` entry.  Guarded by its own `try/except`, hence always `.ok`. -/
def detectAsOrchestrated (r : RawResp) : Except String Result :=
  .ok (detectBody r.pyRepr r.text)

end CaptchaSensor

/-! ## JavaScriptSensor (src/sensors/js_sensor.py)

Same dict-invocation situation as the captcha sensor:
`content = str(response)`, parsed tags are those of the `text` entry.
`detect` has no `try/except`, but no step of its body can raise. -/

namespace JavaScriptSensor

/-- `js_patterns['noscript_warning']['keywords']`. -/
def noscript_keywords : List String :=
  ["javascript is required", "enable javascript", "js is required"]

/-- `js_patterns['dynamic_content']['attributes']`. -/
def dynamic_attributes : List String :=
  ["onclick", "onload", "onchange", "data-react", "ng-", "v-"]

/-- `js_patterns['dynamic_content']['frameworks']`. -/
def frameworks : List String := ["react", "angular", "vue", "jquery"]

/-- The result dict of `JavaScriptSensor.detect`. -/
structure Result where
  requires_js : Bool
  js_features : List String
  confidence : ℚ
  details : List String
deriving DecidableEq, Repr

/-- Initial result (lines 40–45). -/
def initResult : Result := ⟨false, [], 0, []⟩

/-- Does the node carry some attribute whose *name* starts with `a`?
(`soup.find_all(attrs={re.compile(f'^{attr}'): True})`, reading the
compiled regex as a pattern on attribute names). -/
def Node_hasAttrNamedLike (n : Node) (a : String) : Bool :=
  match n with
  | .textNode _ => false
  | .elem _ attrs _ => attrs.any (fun kv => leadsWith a.toList kv.1.toList)

/-- `detect` (lines 22–75). -/
def detectBody (doc : Html) : Result :=
  let r := initResult
  -- noscript warnings (lines 48–54): confidence assigned 0.9
  let r := (findAll doc (fun n => n.tagName == "noscript")).foldl (fun r el =>
    noscript_keywords.foldl (fun r keyword =>
      if substrCI keyword el.innerText then
        { r with requires_js := true, confidence := 0.9,
                 details := r.details ++ ["Found noscript warning: " ++ keyword] }
      else r) r) r
  -- dynamic-content attributes (lines 57–63): confidence maxed 0.8
  let r := dynamic_attributes.foldl (fun r attr =>
    if (findAll doc (fun n => Node_hasAttrNamedLike n attr)).isEmpty then r
    else
      { r with requires_js := true,
               js_features := r.js_features ++ ["dynamic_attribute:" ++ attr],
               confidence := max r.confidence 0.8,
               details := r.details ++ ["Found dynamic attribute: " ++ attr] }) r
  -- framework script sources (lines 66–73): confidence assigned 1.0
  (findAll doc (fun n => n.tagName == "script")).foldl (fun r script =>
    frameworks.foldl (fun r fw =>
      match script.attr "src" with
      | some src =>
        if ¬src.isEmpty && substrOf fw src.toLower then
          { r with requires_js := true,
                   js_features := r.js_features ++ ["framework:" ++ fw],
                   confidence := 1.0,
                   details := r.details ++ ["Found " ++ fw ++ " framework"] }
        else r
      | none => r) r) r

/-- The sensor as the orchestrator invokes it; total, hence `.ok`. -/
def detectAsOrchestrated (r : RawResp) : Except String Result :=
  .ok (detectBody r.text)

end JavaScriptSensor

/-! ## LanguageSensor (src/sensors/lanaguage_sensor.py)

Invoked by the orchestrator with the `response_data` dict; this sensor
reads it with dict operations (`'headers' in response`,
`'text' in response`, `kwargs.get('url')`), which all behave as
intended on the dict.  Both keys are always present in
`response_data`, so both blocks run.  `detect` has **no** `try/except`:
a raised `KeyError` escapes it (modelled by `Except.error`). -/

namespace LanguageSensor

/-- `language_patterns['header_names']`. -/
def header_names : List String := ["content-language", "accept-language"]

/-- `language_patterns['html_attrs']`. -/
def html_attrs : List String := ["lang", "xml:lang", "data-lang"]

/-- `language_patterns['meta_names']`. -/
def meta_names : List String :=
  ["language", "content-language", "og:locale", "dc.language",
   "language-detection"]

/-- `language_patterns['common_paths']`. -/
def common_paths : List String :=
  ["/ar/", "/fr/", "/en/", "/es/", "/de/", "/zh/"]

/-- `language_patterns['language_codes']`. -/
def language_codes : List (String × String) :=
  [("ar", "Arabic"), ("fr", "French"), ("en", "English"),
   ("es", "Spanish"), ("de", "German"), ("zh", "Chinese")]

/-- `language_patterns['language_keywords']`. -/
def language_keywords : List String :=
  ["language", "langue", "idioma", "sprache", "لغة",
   "languages", "langues", "idiomas", "sprachen", "اللغات"]

/-- `language_codes[code]` — raises `KeyError` when absent. -/
def codeNameE (code : String) : Except String String :=
  match language_codes.find? (fun kv => kv.1 == code) with
  | some kv => .ok kv.2
  | none => .error ("KeyError: " ++ code)

/-- The result dict of `LanguageSensor.detect`
(`available_languages` is a set during detection and converted to a
list on return; modelled as an insertion-ordered deduplicated list). -/
structure Result where
  detected_language : Option String
  has_language_redirect : Bool
  available_languages : List String
  confidence : ℚ
  details : List String
deriving DecidableEq, Repr

/-- Initial result (lines 47–53). -/
def initResult : Result := ⟨none, false, [], 0, []⟩

/-- Header source (lines 55–63).  The guard tests membership of the
(lower-case) pattern name in the *lower-cased* keys, but the body then
indexes the **original** dict with the lower-case name — a `KeyError`
when the actual key is not all lower-case.  The detected language is
assigned unconditionally, confidence assigned 0.9. -/
def headerPass (headers : List (String × String)) (r : Result) :
    Except String Result :=
  header_names.foldlM (fun r header =>
    if headers.any (fun kv => kv.1.toLower == header) then do
      let v ← dictGetE headers header
      let lang := ((((v.splitOn ",").headD "").trim).splitOn "-").headD ""
      pure { r with detected_language := some lang, confidence := 0.9,
                    details := r.details ++
                      ["Found language in header: " ++ lang] }
    else pure r) r

/-- HTML root `lang`-attribute source (lines 69–81): unconditional
assignment, confidence assigned 1.0, only for known codes. -/
def htmlAttrPass (doc : Html) (r : Result) : Result :=
  match findFirst doc (fun n => n.tagName == "html") with
  | none => r
  | some htmlTag =>
    html_attrs.foldl (fun r attr =>
      match htmlTag.attr attr with
      | some lang_attr =>
        if ¬lang_attr.isEmpty then
          let lang := ((lang_attr.splitOn "-").headD "").toLower
          match language_codes.find? (fun kv => kv.1 == lang) with
          | some kv =>
            { r with detected_language := some lang, confidence := 1.0,
                     details := r.details ++
                       ["Found language in HTML " ++ attr ++ ": " ++ kv.2] }
          | none => r
        else r
      | none => r) r

/-- Meta-tag source (lines 83–97): for each meta tag and each of the
attributes `name`/`property`/`http-equiv` whose value contains one of
the `meta_names` patterns, an in-set language in `content` is assigned
unconditionally with confidence 0.8 — even over a higher recorded
confidence. -/
def metaPass (doc : Html) (r : Result) : Result :=
  (findAll doc (fun n => n.tagName == "meta")).foldl (fun r meta =>
    ["name", "property", "http-equiv"].foldl (fun r attr =>
      let meta_name := (meta.attrD attr "").toLower
      if meta_names.any (fun pat => substrOf pat meta_name) then
        match meta.attr "content" with
        | some content =>
          if ¬content.isEmpty then
            let lang := ((content.splitOn "-").headD "").toLower
            match language_codes.find? (fun kv => kv.1 == lang) with
            | some kv =>
              { r with detected_language := some lang, confidence := 0.8,
                       details := r.details ++
                         ["Found language in meta tag: " ++ kv.2] }
            | none => r
          else r
        | none => r
      else r) r) r

/-- The regex `[/\?](code|lang=code|locale=code)` under `re.I`. -/
def hrefLangMatch (code href : String) : Bool :=
  let alts := [code, "lang=" ++ code, "locale=" ++ code]
  let rec go : List Char → Bool
    | [] => false
    | c :: cs =>
      ((c == '/' || c == '?') &&
        alts.any (fun a => leadsWith a.toList cs)) || go cs
  go href.toLower.toList

/-- Language-switcher links (lines 99–125): anchors collected by
keyword text or by language-code hrefs; each matching (link, code)
pair adds the code to the `available_languages` set, maxes confidence
with 0.7 and appends a detail line.  `detected_language` is untouched. -/
def switcherPass (doc : Html) (r : Result) : Result :=
  let links1 := language_keywords.flatMap (fun keyword =>
    findAll doc (fun n => n.tagName == "a" && substrCI keyword n.innerText))
  let links2 := language_codes.flatMap (fun kv =>
    findAll doc (fun n => n.tagName == "a" &&
      hrefLangMatch kv.1 (n.attrD "href" "")))
  (links1 ++ links2).foldl (fun r link =>
    let href := link.attrD "href" ""
    language_codes.foldl (fun r kv =>
      if hrefLangMatch kv.1 href then
        { r with available_languages := setAdd r.available_languages kv.1,
                 confidence := max r.confidence 0.7,
                 details := r.details ++ ["Found language option: " ++ kv.2] }
      else r) r) r

/-- Python `s.strip('/')`. -/
def stripSlashes (s : String) : String :=
  String.mk (((s.toList.dropWhile (· == '/')).reverse.dropWhile
    (· == '/')).reverse)

/-- URL-path source (lines 127–139): unconditional assignment of
`detected_language`, confidence maxed with 0.9, sets the redirect
flag.  The detail line indexes `language_codes[lang_code]`. -/
def urlPathPass (url : String) (r : Result) : Except String Result :=
  if ¬url.isEmpty then
    common_paths.foldlM (fun r path =>
      let lang_code := (stripSlashes path).toLower
      if substrOf ("/" ++ lang_code ++ "/") url.toLower then do
        let name ← codeNameE lang_code
        pure { r with has_language_redirect := true,
                      detected_language := some lang_code,
                      confidence := max r.confidence 0.9,
                      details := r.details ++
                        ["Found language in URL path: " ++ name] }
      else pure r) r
  else pure r

/-- First match of `[?&](?:lang|locale)=(\w+)` in the url: the
captured word. -/
def findLangParam : List Char → Option String
  | [] => none
  | c :: cs =>
    if c == '?' || c == '&' then
      if leadsWith "lang=".toList cs then
        let w := (cs.drop 5).takeWhile (fun ch => ch.isAlphanum || ch == '_')
        if w.isEmpty then findLangParam cs else some (String.mk w)
      else if leadsWith "locale=".toList cs then
        let w := (cs.drop 7).takeWhile (fun ch => ch.isAlphanum || ch == '_')
        if w.isEmpty then findLangParam cs else some (String.mk w)
      else findLangParam cs
    else findLangParam cs

/-- URL-parameter source (lines 141–150): unconditional assignment,
confidence maxed with 0.8, only for known codes. -/
def urlParamPass (url : String) (r : Result) : Result :=
  match findLangParam url.toList with
  | none => r
  | some w =>
    let lang_code := w.toLower
    match language_codes.find? (fun kv => kv.1 == lang_code) with
    | some kv =>
      { r with detected_language := some lang_code,
               confidence := max r.confidence 0.8,
               details := r.details ++
                 ["Found language in URL parameter: " ++ kv.2] }
    | none => r

/-- `LanguageSensor.detect` (lines 36–155): the five sources in
program order; the URL sources run inside the `'text' in response`
block, which always holds for the orchestrator's dict. -/
def detect (headers : List (String × String)) (doc : Html) (url : String) :
    Except String Result := do
  let r := initResult
  let r ← headerPass headers r
  let r := htmlAttrPass doc r
  let r := metaPass doc r
  let r := switcherPass doc r
  let r ← urlPathPass url r
  pure (urlParamPass url r)

/-- The sensor as the orchestrator invokes it. -/
def detectAsOrchestrated (r : RawResp) : Except String Result :=
  detect r.headers r.text r.url

end LanguageSensor

/-- The children of a node (`tag.find_all` searches below the tag). -/
def Node.childNodes : Node → List Node
  | .elem _ _ cs => cs
  | .textNode _ => []

/-- `tag.find_all(pred)` below a given node. -/
def findAllWithin (n : Node) (p : Node → Bool) : List Node :=
  findAll n.childNodes p

/-! ## AuthSensor (src/sensors/auth_sensor.py)

Not registered by the orchestrator (analyzer.py builds six sensors and
never imports `AuthSensor`); modelled as called directly on a
response dict `{headers, text}` — `response.get('headers', {})`
behaves as written and the parsed tags are those of the `text` entry
(cf. the captcha modelling note).  The body is wrapped in
`try/except`; no step of the embedded body can raise, so `detect` is
total. -/

namespace AuthSensor

/-- `auth_patterns['login_form']`. -/
def form_action_keywords : List String := ["login", "signin", "auth", "authenticate"]

/-- `auth_patterns['login_form']['input_types']`. -/
def input_types : List String := ["text", "password", "email"]

/-- `auth_patterns['login_form']['buttons']`. -/
def button_values : List String := ["login", "sign in", "submit"]

/-- `auth_patterns['oauth']['providers']`. -/
def providers : List String := ["google", "facebook", "twitter", "github"]

/-- `auth_patterns['oauth']['classes']`. -/
def oauth_classes : List String :=
  ["btn-google", "btn-facebook", "btn-twitter", "btn-github"]

/-- `auth_patterns['oauth']['links']`. -/
def oauth_links_pats : List String := ["login/oauth", "oauth/login"]

/-- `auth_patterns['http_basic']['headers']`. -/
def basic_header_pats : List String := ["basic realm"]

/-- `auth_patterns['token_based']['header_names']`. -/
def token_header_names : List String := ["authorization", "token"]

/-- The result dict of `AuthSensor.detect`. -/
structure Result where
  has_auth : Bool
  auth_type : List String
  confidence : ℚ
  details : List String
deriving DecidableEq, Repr

/-- `_detect_login_form` (lines 102–112). -/
def detectLoginForm (doc : Html) : Bool :=
  (findAll doc (fun n => n.tagName == "form" &&
      (match n.attr "method" with
       | some m => ¬m.isEmpty && (m.toLower == "post" || m.toLower == "get")
       | none => false))).any (fun form =>
    let action := (form.attrD "action" "").toLower
    form_action_keywords.any (fun k => substrOf k action) &&
      (let inputs := findAllWithin form (fun n => n.tagName == "input" &&
        (match n.attr "type" with
         | some t => ¬t.isEmpty && input_types.contains t.toLower
         | none => false))
      let buttons :=
        findAllWithin form (fun n => n.tagAttrEq "button" "type" "submit") ++
        findAllWithin form (fun n => n.tagAttrEq "input" "type" "submit") ++
        findAllWithin form (fun n => n.tagAttrEq "input" "type" "button" &&
          (match n.attr "value" with
           | some v => ¬v.isEmpty && button_values.contains v.toLower
           | none => false))
      ¬inputs.isEmpty && ¬buttons.isEmpty))

/-- `_detect_oauth` (lines 114–125).  Note the third and fourth
queries (`classes`, `oauth_links`) do not mention the loop's
`provider`, so one generic match adds a detail line for **every**
provider. -/
def detectOauth (doc : Html) : List String :=
  providers.foldl (fun details provider =>
    let buttons := findAll doc (fun n =>
      n.tagName == "button" && n.classMatches [provider] true)
    let links := findAll doc (fun n =>
      n.tagAttrMatches "a" "href" [provider] true)
    let classes := findAll doc (fun n => n.classMatches oauth_classes true)
    let oauthLinks := findAll doc (fun n =>
      n.tagAttrMatches "a" "href" oauth_links_pats true)
    if ¬buttons.isEmpty || ¬links.isEmpty || ¬classes.isEmpty ||
        ¬oauthLinks.isEmpty then
      details ++ ["Found OAuth provider: " ++ provider]
    else details) []

/-- `_detect_http_basic` (lines 127–134).  `status_code` is read from
the *headers* dict with default `200`; a present value is a string and
a Python string never equals the int `401`, so the conjunct
`status_code == 401` is false on every header dict, making the whole
check constantly false. -/
def detectHttpBasic (headers : List (String × String)) : Bool :=
  let www_authenticate := (dictGetD headers "www-authenticate" "").toLower
  let statusIs401 : Bool := false
  basic_header_pats.any (fun p => substrOf p www_authenticate) && statusIs401

/-- `_detect_token_based` (lines 136–140). -/
def detectTokenBased (headers : List (String × String)) : Bool :=
  token_header_names.any (fun h => dictHasKey headers h)

/-- `AuthSensor.detect` (lines 36–100): accumulates `auth_type` and
sets `confidence = round(min(1.0, len(auth_type) * 0.3), 2)`. -/
def detect (headers : List (String × String)) (doc : Html) : Result :=
  let r : Result := ⟨false, [], 0, []⟩
  let r := if detectLoginForm doc then
    { r with has_auth := true, auth_type := r.auth_type ++ ["login_form"],
             details := r.details ++ ["Found login form"] }
    else r
  let oauth_details := detectOauth doc
  let r := if ¬oauth_details.isEmpty then
    { r with has_auth := true, auth_type := r.auth_type ++ oauth_details,
             details := r.details ++ oauth_details }
    else r
  let r := if detectHttpBasic headers then
    { r with has_auth := true, auth_type := r.auth_type ++ ["http_basic"],
             details := r.details ++ ["Found HTTP Basic Auth"] }
    else r
  let r := if detectTokenBased headers then
    { r with has_auth := true, auth_type := r.auth_type ++ ["token_based"],
             details := r.details ++ ["Found token-based authentication"] }
    else r
  { r with confidence := round2 (min 1 ((r.auth_type.length : ℚ) * 0.3)) }

end AuthSensor

/-! ## APISensor (src/sensors/api_sensor.py)

Reads the response through `hasattr(response, 'headers')` and
`hasattr(response, 'text')` — both false on the orchestrator's dict,
so as orchestrated the whole body (including the URL checks, which
are nested inside the text branch) is skipped. -/

namespace APISensor

/-- `api_patterns['xhr_patterns']['headers']`. -/
def xhr_headers : List String := ["X-Requested-With", "Content-Type"]

/-- `api_patterns['xhr_patterns']['functions']`. -/
def xhr_functions : List String :=
  ["XMLHttpRequest", "fetch", "axios", "$http", "ajax"]

/-- `api_patterns['graphql']['indicators']`. -/
def graphql_indicators : List String := ["query", "mutation", "__schema"]

/-- The `(api_type, paths)` pairs of `api_patterns` that carry a
`'paths'` entry, in dict order. -/
def url_path_patterns : List (String × List String) :=
  [("rest_endpoints", ["/api/", "/rest/", "/v1/", "/v2/", "/graphql"]),
   ("documentation", ["/docs", "/swagger", "/api-docs", "/redoc"])]

/-- The result dict of `APISensor.detect` (`api_types` and `endpoints`
are sets converted to lists on return). -/
structure Result where
  has_api : Bool
  api_types : List String
  endpoints : List String
  confidence : ℚ
  details : List String
deriving DecidableEq, Repr

/-- Initial result (lines 41–47). -/
def initResult : Result := ⟨false, [], [], 0, []⟩

/-- `tag.string`: the single text child, if the node has exactly one. -/
def Node.stringOpt : Node → Option String
  | .elem _ _ [.textNode s] => some s
  | _ => none

/-- One match of `["\'](/(?:api|v[0-9]+)/[^"\']+)["\']` starting right
after an opening quote: returns the captured group and the rest of the
input after the closing quote. -/
def matchEndpoint : List Char → Option (String × List Char)
  | '/' :: cs1 =>
    let core? : Option (List Char × List Char) :=
      if leadsWith ['a', 'p', 'i'] cs1 then
        some (['a', 'p', 'i'], cs1.drop 3)
      else
        match cs1 with
        | 'v' :: cs2 =>
          let ds := cs2.takeWhile Char.isDigit
          if ds.isEmpty then none else some ('v' :: ds, cs2.drop ds.length)
        | _ => none
    match core? with
    | some (core, cs3) =>
      match cs3 with
      | '/' :: cs4 =>
        let body := cs4.takeWhile (fun c => c != '"' && c != '\x27')
        if body.isEmpty then none
        else
          match cs4.drop body.length with
          | q :: rest =>
            if q == '"' || q == '\x27' then
              some (String.mk ('/' :: core ++ '/' :: body), rest)
            else none
          | [] => none
      | _ => none
    | none => none
  | _ => none

/-- All captures of `re.finditer` for the endpoint regex, left to
right and non-overlapping (fuel bounds the scan; the input length
always suffices). -/
def endpointScanGo : Nat → List Char → List String
  | 0, _ => []
  | _ + 1, [] => []
  | fuel + 1, c :: cs =>
    if c == '"' || c == '\x27' then
      match matchEndpoint cs with
      | some (ep, rest) => ep :: endpointScanGo fuel rest
      | none => endpointScanGo fuel cs
    else endpointScanGo fuel cs

/-- All endpoint captures in a script body. -/
def endpointScan (s : String) : List String :=
  endpointScanGo s.toList.length s.toList

/-- `APISensor.detect` (lines 30–110), with the `hasattr`-guarded
blocks as `Option` parameters (cf. `AntiBotSensor`). -/
def detect (attrHeaders : Option (List (String × String)))
    (attrText : Option Html) (url : String) : Result :=
  let r := initResult
  -- header block (lines 50–57)
  let r := match attrHeaders with
    | some headers =>
      xhr_headers.foldl (fun r header =>
        if dictHasKey headers header then
          { r with has_api := true, api_types := setAdd r.api_types "xhr",
                   confidence := max r.confidence 0.8,
                   details := r.details ++ ["Found API header: " ++ header] }
        else r) r
    | none => r
  -- text block (lines 59–104)
  match attrText with
  | none => r
  | some doc =>
    let content := Html.render doc
    -- script scanning (lines 64–84)
    let r := (findAll doc (fun n => n.tagName == "script")).foldl (fun r script =>
      let script_content := (Node.stringOpt script).getD ""
      let r := xhr_functions.foldl (fun r func =>
        if substrOf func script_content then
          { r with has_api := true, api_types := setAdd r.api_types "xhr",
                   confidence := max r.confidence 0.7,
                   details := r.details ++ ["Found " ++ func ++ " usage"] }
        else r) r
      (endpointScan script_content).foldl (fun r ep =>
        { r with has_api := true, api_types := setAdd r.api_types "rest",
                 endpoints := setAdd r.endpoints ep,
                 confidence := max r.confidence 0.9,
                 details := r.details ++ ["Found API endpoint: " ++ ep] }) r) r
    -- GraphQL indicators (lines 87–92)
    let r := graphql_indicators.foldl (fun r ind =>
      if substrOf ind content then
        { r with has_api := true, api_types := setAdd r.api_types "graphql",
                 confidence := max r.confidence 0.8,
                 details := r.details ++ ["Found GraphQL indicator: " ++ ind] }
      else r) r
    -- URL patterns (lines 95–104)
    if ¬url.isEmpty then
      url_path_patterns.foldl (fun r tp =>
        tp.2.foldl (fun r path =>
          if substrOf path url then
            { r with has_api := true, api_types := setAdd r.api_types tp.1,
                     confidence := max r.confidence 0.9,
                     details := r.details ++
                       ["URL contains " ++ tp.1 ++ " path: " ++ path] }
          else r) r) r
    else r

/-- The sensor as the orchestrator invokes it: dict argument, both
`hasattr` guards false; total, hence `.ok`. -/
def detectAsOrchestrated (r : RawResp) : Except String Result :=
  .ok (detect none none r.url)

end APISensor

/-! ## MobileSensor (src/sensors/mobile_sensor.py)

External collaborators are inputs of the embedding: the Wappalyzer
result (`wapp`; `none` models `self.wappalyzer is None`) and the Play
Store HTTP GET (`netOk`/`netStatus`/`netPage`).  This sensor reads the
response with dict operations, so it behaves as written on the
orchestrator's dict — including the in-place mutation of the
response's headers dict (lines 180–182). -/

namespace MobileSensor

/-- `self.user_agent` from `__init__`. -/
def user_agent : String :=
  "Mozilla/5.0 (Linux; Android 11; Pixel 5) AppleWebKit/537.36 (KHTML, like Gecko) Chrome/90.0.4430.91 Mobile Safari/537.36"

/-- The keys of `self.mobile_patterns` (from `__init__`, lines 21–49);
the four values are embedded as the named tables below.  Note
`'store_patterns'` is **not** among them. -/
def mobilePatternsKeys : List String :=
  ["url_patterns", "meta_tags", "app_links", "responsive_indicators"]

/-- `self.mobile_patterns[key]` — the lookup raises `KeyError` for any
key outside the table; only the key set matters where this is used. -/
def mobilePatternsFind (k : String) : Except String Unit :=
  if mobilePatternsKeys.contains k then .ok () else .error ("KeyError: " ++ k)

/-- `mobile_patterns['url_patterns']['subdomains']`. -/
def url_subdomains : List String := ["m.", "mobile.", "touch."]

/-- `mobile_patterns['url_patterns']['paths']`. -/
def url_paths : List String := ["/mobile/", "/m/", "/amp/"]

/-- `mobile_patterns['meta_tags'].values()`, in dict order. -/
def meta_tag_names : List String :=
  ["viewport", "mobile-web-app-capable", "apple-mobile-web-app-capable",
   "format-detection", "theme-color", "application-name"]

/-- `mobile_patterns['app_links']`, platforms in dict order:
`(platform, meta_names, store_urls)`. -/
def app_link_patterns : List (String × List String × List String) :=
  [("ios", ["apple-itunes-app", "apple-mobile-web-app-title"],
    ["apps.apple.com", "itunes.apple.com"]),
   ("android", ["google-play-app"], ["play.google.com"])]

/-- `mobile_patterns['responsive_indicators']['css_rules']`. -/
def css_rules : List String := ["@media", "max-width", "min-width"]

/-- The Wappalyzer technology map assembled by `analyze_technologies`
(lines 68–79); `{}`-filtering on return is immaterial because the
caller reads it with `.get`, for which a dropped key and an empty
value coincide. -/
structure TechInfo where
  frameworks : List String
  mobile_frameworks : List String
  javascript_frameworks : List String
  analytics : List String
  advertising : List String
  cms : Option String
  server : Option String
  cdn : Option String
  security : List String
  ui_frameworks : List String
deriving DecidableEq, Repr

/-- The empty technology map. -/
def emptyTech : TechInfo := ⟨[], [], [], [], [], none, none, none, [], []⟩

/-- One iteration of the `tech_mappings` loop (lines 87–105) for one
detected technology and its category list. -/
def applyMapping (tech : String) (cats : List String) (t : TechInfo) : TechInfo :=
  let hit := fun (pat : String) => cats.any (fun cat => substrOf pat cat)
  let t := if hit "Mobile" then
    { t with mobile_frameworks := t.mobile_frameworks ++ [tech] } else t
  let t := if hit "Web framework" then
    { t with frameworks := t.frameworks ++ [tech] } else t
  let t := if hit "JavaScript" then
    { t with javascript_frameworks := t.javascript_frameworks ++ [tech] } else t
  let t := if hit "Analytics" then
    { t with analytics := t.analytics ++ [tech] } else t
  let t := if hit "Advertising" then
    { t with advertising := t.advertising ++ [tech] } else t
  let t := if hit "CMS" then { t with cms := some tech } else t
  let t := if hit "Web server" then { t with server := some tech } else t
  let t := if hit "CDN" then { t with cdn := some tech } else t
  let t := if hit "Security" then
    { t with security := t.security ++ [tech] } else t
  if hit "UI framework" then
    { t with ui_frameworks := t.ui_frameworks ++ [tech] } else t

/-- The `framework_patterns` table of `analyze_technologies`
(lines 111–116): `(framework, class pattern, link pattern)`. -/
def framework_patterns : List (String × String × String) :=
  [("bootstrap", "container", "bootstrap"),
   ("foundation", "row", "foundation"),
   ("material-ui", "MuiButton-root", "material"),
   ("tailwind", "text-center", "tailwind")]

/-- `analyze_technologies` (lines 51–128).  `wapp` is the external
Wappalyzer collaborator's output (`none`: the collaborator failed to
initialise and the function returns `{}` at once).  The body is
guarded by `try/except` returning `{}`; no step of the embedded body
raises. -/
def analyze_technologies (wapp : Option (List (String × List String)))
    (doc : Html) : TechInfo :=
  match wapp with
  | none => emptyTech
  | some detected =>
    let t := detected.foldl (fun t tc => applyMapping tc.1 tc.2 t) emptyTech
    framework_patterns.foldl (fun t f =>
      if ¬(findAll doc (fun n =>
              n.tagAttrMatchesRe "link" "href" [f.2.2] true)).isEmpty ||
         ¬(findAll doc (fun n => n.classMatches [f.2.1] false)).isEmpty then
        { t with ui_frameworks := t.ui_frameworks ++ [f.1] }
      else t) t

/-- The result of `_check_play_store` (lines 132–136). -/
structure PlayStoreInfo where
  has_app : Bool
  app_id : Option String
  details : List String
deriving DecidableEq, Repr

/-- Initial Play Store info. -/
def initPlayStore : PlayStoreInfo := ⟨false, none, []⟩

/-- The loop over matching app links (lines 148–156).  For the first
link whose href contains the domain, the body evaluates
`self.mobile_patterns['store_patterns']['play_store']` — but
`'store_patterns'` is not a key of `mobile_patterns`
(`mobilePatternsKeys`), so the lookup raises `KeyError` before the
branch that would set `has_app`/`app_id` can run; there is no regex in
the source to apply, and control provably never reaches past the
lookup (theorem `C10_play_store_never_finds_app`). -/
def playStoreLoop (domain : String) :
    List Node → PlayStoreInfo → Except String PlayStoreInfo
  | [], i => pure i
  | link :: rest, i =>
    let href := link.attrD "href" ""
    if substrOf domain.toLower href.toLower then do
      let _unit ← mobilePatternsFind "store_patterns"
      playStoreLoop domain rest i
    else playStoreLoop domain rest i

/-- `_check_play_store` (lines 130–160): the `aiohttp` GET is the
external input (`netOk = false` models a network error, which the
`except` converts into the error detail, like any other exception in
the body). -/
def checkPlayStoreBody (domain : String) (netOk : Bool) (netStatus : Int)
    (netPage : Html) : Except String PlayStoreInfo :=
  if ¬netOk then .error "ClientError"
  else if netStatus == 200 then
    let app_links := findAll netPage (fun n =>
      n.tagAttrMatchesRe "a" "href" ["/store/apps/details"] false)
    playStoreLoop domain app_links initPlayStore
  else pure initPlayStore

/-- The surrounding `try/except` of `_check_play_store`: any exception
in the body is converted into an error detail line on the otherwise
untouched no-app result. -/
def checkPlayStore (domain : String) (netOk : Bool) (netStatus : Int)
    (netPage : Html) : PlayStoreInfo :=
  match checkPlayStoreBody domain netOk netStatus netPage with
  | .ok i => i
  | .error e =>
    { initPlayStore with
        details := initPlayStore.details ++ ["Error checking Play Store: " ++ e] }

/-- The result dict of `MobileSensor.detect` (sets modelled as
insertion-ordered deduplicated lists). -/
structure Result where
  has_mobile_version : Bool
  mobile_features : List String
  app_links_ios : List String
  app_links_android : List String
  technologies : TechInfo
  confidence : ℚ
  details : List String
deriving DecidableEq, Repr

/-- Initial result (lines 164–174). -/
def initResult : Result := ⟨false, [], [], [], emptyTech, 0, []⟩

/-- `MobileSensor.detect` (lines 162–313).  Returns the result
*and* the response after the call: lines 180–182 insert a
`User-Agent` entry into the response's headers dict (the dict object
inside `response_data`) whenever that exact key is absent.  The body
is inside `try/except`; no step of the embedded body raises (the two
fallible sub-operations are internally guarded). -/
def detect (r : RawResp) (url : String)
    (wapp : Option (List (String × List String)))
    (netOk : Bool) (netStatus : Int) (netPage : Html) : Result × RawResp :=
  -- lines 179–182: in-place mutation of the response's headers dict
  let headers := if dictHasKey r.headers "User-Agent" then r.headers
                 else r.headers ++ [("User-Agent", user_agent)]
  let r' : RawResp := { r with headers := headers }
  let doc := r.text
  let res := initResult
  -- technologies (lines 184–200); `'text' in response` always holds
  let res := if ¬url.isEmpty then
    let techs := analyze_technologies wapp doc
    let res := { res with technologies := techs }
    if ¬techs.mobile_frameworks.isEmpty then
      { res with has_mobile_version := true,
                 mobile_features := setAdd res.mobile_features "mobile_framework",
                 confidence := max res.confidence 0.9,
                 details := res.details ++
                   ["Detected mobile frameworks: " ++
                     String.intercalate ", " techs.mobile_frameworks] }
    else res
  else res
  -- domain (line 204)
  let domain := if url.startsWith "http://" || url.startsWith "https://" then
                  (url.splitOn "/").getD 2 ""
                else ""
  -- Play Store (lines 207–215); details are recorded only on has_app
  let res := if ¬domain.isEmpty then
    let psi := checkPlayStore domain netOk netStatus netPage
    if psi.has_app then
      { res with has_mobile_version := true,
                 mobile_features := setAdd res.mobile_features "android_app",
                 app_links_android :=
                   setAdd res.app_links_android (psi.app_id.getD ""),
                 confidence := max res.confidence 1.0,
                 details := res.details ++ psi.details }
    else res
  else res
  -- Vary header (lines 217–224), on the *mutated* headers dict
  let res := if dictHasKey headers "Vary" &&
                substrOf "User-Agent" (dictGetD headers "Vary" "") then
    { res with has_mobile_version := true,
               mobile_features := setAdd res.mobile_features "user_agent_detection",
               confidence := max res.confidence 0.7,
               details := res.details ++ ["Found User-Agent variation header"] }
  else res
  -- meta viewport (lines 230–236)
  let res := if (findFirst doc (fun n =>
                  n.tagAttrEq "meta" "name" "viewport")).isSome then
    { res with has_mobile_version := true,
               mobile_features := setAdd res.mobile_features "responsive_design",
               confidence := max res.confidence 0.9,
               details := res.details ++ ["Found responsive viewport meta tag"] }
  else res
  -- mobile meta tags (lines 238–245)
  let res := meta_tag_names.foldl (fun res meta_name =>
    if (findFirst doc (fun n => n.tagAttrEq "meta" "name" meta_name)).isSome then
      { res with has_mobile_version := true,
                 mobile_features := setAdd res.mobile_features "mobile_optimized",
                 confidence := max res.confidence 0.8,
                 details := res.details ++ ["Found mobile meta tag: " ++ meta_name] }
    else res) res
  -- app store links (lines 247–272)
  let res := app_link_patterns.foldl (fun res plat =>
    let res := plat.2.1.foldl (fun res meta_name =>
      match findFirst doc (fun n => n.tagAttrEq "meta" "name" meta_name) with
      | some meta =>
        match meta.attr "content" with
        | some content =>
          if ¬content.isEmpty then
            { res with has_mobile_version := true,
                       mobile_features :=
                         setAdd res.mobile_features (plat.1 ++ "_app"),
                       app_links_ios := if plat.1 == "ios" then
                           setAdd res.app_links_ios content
                         else res.app_links_ios,
                       app_links_android := if plat.1 == "android" then
                           setAdd res.app_links_android content
                         else res.app_links_android,
                       confidence := max res.confidence 1.0,
                       details := res.details ++
                         ["Found " ++ plat.1 ++ " app meta tag"] }
          else res
        | none => res
      | none => res) res
    plat.2.2.foldl (fun res store_url =>
      (findAll doc (fun n =>
          n.tagAttrMatchesRe "a" "href" [store_url] false)).foldl (fun res link =>
        match link.attr "href" with
        | some href =>
          if ¬href.isEmpty then
            { res with has_mobile_version := true,
                       mobile_features :=
                         setAdd res.mobile_features (plat.1 ++ "_app"),
                       app_links_ios := if plat.1 == "ios" then
                           setAdd res.app_links_ios href
                         else res.app_links_ios,
                       app_links_android := if plat.1 == "android" then
                           setAdd res.app_links_android href
                         else res.app_links_android,
                       confidence := max res.confidence 1.0,
                       details := res.details ++
                         ["Found " ++ plat.1 ++ " app store link"] }
          else res
        | none => res) res) res) res
  -- responsive CSS in style tags (lines 274–283)
  let res := (findAll doc (fun n => n.tagName == "style")).foldl (fun res style =>
    match APISensor.Node.stringOpt style with
    | some s =>
      if ¬s.isEmpty then
        css_rules.foldl (fun res ind =>
          if substrOf ind s then
            { res with has_mobile_version := true,
                       mobile_features :=
                         setAdd res.mobile_features "responsive_design",
                       confidence := max res.confidence 0.8,
                       details := res.details ++
                         ["Found responsive CSS: " ++ ind] }
          else res) res
      else res
    | none => res) res
  -- URL patterns (lines 285–301)
  let res := if ¬url.isEmpty then
    let res := url_subdomains.foldl (fun res sub =>
      if patLeads ("http://" ++ sub).toList url.toLower.toList ||
         patLeads ("https://" ++ sub).toList url.toLower.toList then
        { res with has_mobile_version := true,
                   mobile_features :=
                     setAdd res.mobile_features "mobile_subdomain",
                   confidence := max res.confidence 1.0,
                   details := res.details ++
                     ["Found mobile subdomain: " ++ sub] }
      else res) res
    url_paths.foldl (fun res path =>
      if substrOf path url then
        { res with has_mobile_version := true,
                   mobile_features := setAdd res.mobile_features "mobile_path",
                   confidence := max res.confidence 0.9,
                   details := res.details ++ ["Found mobile path: " ++ path] }
      else res) res
  else res
  (res, r')

/-- The sensor as the orchestrator invokes it; total, hence `.ok`. -/
def detectAsOrchestrated (r : RawResp)
    (wapp : Option (List (String × List String)))
    (netOk : Bool) (netStatus : Int) (netPage : Html) :
    Except String (Result × RawResp) :=
  .ok (detect r r.url wapp netOk netStatus netPage)

end MobileSensor

/-! ## The orchestrator: `WebAnalyzer.analyze_url` (src/analyzer.py)

The fetch collaborator is an input: `.error` models an
`aiohttp.ClientError` raised by the GET (the only exception
`analyze_url` catches).  Each sensor's `detect` result is an
`Except`-value; the per-sensor `try/except` (lines 86–103) wraps both
the `detect` call and the `get_mitigation_strategy` call. -/

/-- A mitigation-strategy dict: the names of its `strategies` entries
and its `recommendations` lines (the per-strategy config payloads are
never read by the orchestrator — `if mitigation:` only tests dict
non-emptiness — and are elided). -/
structure Mitigation where
  strategies : List String
  recommendations : List String
deriving DecidableEq, Repr

/-- Python truthiness of a mitigation dict. -/
def Mitigation.truthy (m : Mitigation) : Bool :=
  ¬m.strategies.isEmpty || ¬m.recommendations.isEmpty

/-- `CaptchaSensor.get_mitigation_strategy(self)` (captcha_sensor.py
lines 99–128). -/
def CaptchaSensor.mitigation : Mitigation :=
  ⟨["recaptcha", "hcaptcha", "unknown"],
   ["Implement delay between requests", "Use rotating proxies",
    "Add human-like browser fingerprints"]⟩

/-- `JavaScriptSensor.get_mitigation_strategy(self)` (js_sensor.py
lines 77–105). -/
def JavaScriptSensor.mitigation : Mitigation :=
  ⟨["headless_browser", "js_rendering"],
   ["Use headless browser with JavaScript enabled",
    "Implement wait conditions for dynamic content",
    "Consider using a pre-rendering service"]⟩

/-- `AntiBotSensor.get_mitigation_strategy(self)` (antibot_sensor.py
lines 91–132). -/
def AntiBotSensor.mitigation : Mitigation :=
  ⟨["proxy_rotation", "request_delay", "browser_fingerprint"],
   ["Implement exponential backoff for rate limits",
    "Use residential proxies for better success rate",
    "Rotate browser fingerprints regularly",
    "Consider using specialized anti-bot bypass services"]⟩

/-- `LanguageSensor.get_mitigation_strategy(self)` (lanaguage_sensor.py
lines 157–199). -/
def LanguageSensor.mitigation : Mitigation :=
  ⟨["header_modification", "url_handling", "cookie_management"],
   ["Set appropriate Accept-Language header",
    "Handle language-specific redirects",
    "Maintain consistent language preferences across sessions",
    "Consider using translation services if needed"]⟩

/-- `APISensor.get_mitigation_strategy(self)` (api_sensor.py
lines 112–153). -/
def APISensor.mitigation : Mitigation :=
  ⟨["authentication", "rate_limiting", "documentation"],
   ["Implement proper API authentication",
    "Respect rate limits and implement backoff",
    "Extract and save API documentation if available",
    "Consider using dedicated API clients for different API types"]⟩

/-- `MobileSensor.get_mitigation_strategy(self)` (mobile_sensor.py
lines 315–356). -/
def MobileSensor.mitigation : Mitigation :=
  ⟨["user_agent", "viewport_handling", "app_deep_linking"],
   ["Use mobile User-Agent strings when needed",
    "Handle responsive layouts appropriately",
    "Extract and store mobile app information",
    "Consider testing with real mobile device profiles"]⟩

/-- A detection-result value as stored in the profile. -/
inductive DetectVal where
  | cap (c : CaptchaSensor.Result)
  | js (j : JavaScriptSensor.Result)
  | antibot (a : AntiBotSensor.Result)
  | lang (l : LanguageSensor.Result)
  | api (a : APISensor.Result)
  | mobile (m : MobileSensor.Result)
deriving DecidableEq, Repr

/-- `result.get('confidence', 0)` (every sensor result carries the
key). -/
def DetectVal.conf : DetectVal → ℚ
  | .cap c => c.confidence
  | .js j => j.confidence
  | .antibot a => a.confidence
  | .lang l => l.confidence
  | .api a => a.confidence
  | .mobile m => m.confidence

/-- One registered sensor at the orchestrator boundary: the outcome of
its `detect` call on the current response, the number of parameters
(besides `self`) its `get_mitigation_strategy` is defined with, and
that method's return value. -/
structure SensorIface where
  run : Except String DetectVal
  mitigationParams : ℕ
  mitigation : Mitigation

/-- `self.sensors` (analyzer.py lines 38–45) applied to the current
response: the six registered sensors in dict (insertion) order.  Every
sensor in the repository defines `get_mitigation_strategy(self)` with
no further parameter, hence `mitigationParams = 0` throughout. -/
def sensorList (r : RawResp) (wapp : Option (List (String × List String)))
    (netOk : Bool) (netStatus : Int) (netPage : Html) :
    List (String × SensorIface) :=
  [("captcha",
    ⟨(CaptchaSensor.detectAsOrchestrated r).map .cap, 0, CaptchaSensor.mitigation⟩),
   ("javascript",
    ⟨(JavaScriptSensor.detectAsOrchestrated r).map .js, 0, JavaScriptSensor.mitigation⟩),
   ("antibot",
    ⟨(AntiBotSensor.detectAsOrchestrated r).map .antibot, 0, AntiBotSensor.mitigation⟩),
   ("language",
    ⟨(LanguageSensor.detectAsOrchestrated r).map .lang, 0, LanguageSensor.mitigation⟩),
   ("api",
    ⟨(APISensor.detectAsOrchestrated r).map .api, 0, APISensor.mitigation⟩),
   ("mobile",
    ⟨((MobileSensor.detectAsOrchestrated r wapp netOk netStatus netPage).map
        (fun p => DetectVal.mobile p.1)), 0, MobileSensor.mitigation⟩)]

/-- The profile dict `analyze_url` builds (lines 57–65). -/
structure Profile where
  url : String
  status_code : Option Int
  headers : List (String × String)
  restrictions : List (String × DetectVal)
  features : List (String × DetectVal)
  mitigation_strategies : List (String × Mitigation)
  overall_confidence : ℚ
deriving DecidableEq, Repr

/-- The initial profile (lines 57–65). -/
def initProfile (url : String) : Profile := ⟨url, none, [], [], [], [], 0⟩

/-- The restriction-category keys (line 90). -/
def restriction_names : List String := ["captcha", "javascript", "antibot"]

/-- `sensor.get_mitigation_strategy(result)` (line 98): one positional
argument passed to a method defined with none raises `TypeError`. -/
def mitigationCall (iface : SensorIface) (_result : DetectVal) :
    Except String Mitigation :=
  if iface.mitigationParams == 1 then .ok iface.mitigation
  else .error
    "TypeError: get_mitigation_strategy() takes 1 positional argument but 2 were given"

/-- The loop state of `analyze_url`: the profile under construction,
`total_confidence`, `sensor_count`, and (for the invocation claims)
the trace of sensors whose `detect` the loop has called. -/
structure OrchState where
  profile : Profile
  total_confidence : ℚ
  sensor_count : ℕ
  invoked : List String
deriving DecidableEq, Repr

/-- One iteration of the sensor loop (lines 85–103).  The `try` block
first calls `detect` (a raising sensor contributes nothing), then
stores the result and updates the confidence accumulators, then calls
`get_mitigation_strategy(result)` — whose `TypeError` is caught by the
same `except` *after* the result is already stored. -/
def runSensor (st : OrchState) (s : String × SensorIface) : OrchState :=
  let st := { st with invoked := st.invoked ++ [s.1] }
  match s.2.run with
  | .error _ => st
  | .ok val =>
    let st :=
      if restriction_names.contains s.1 then
        { st with
            profile := { st.profile with
              restrictions := st.profile.restrictions ++ [(s.1, val)] },
            total_confidence := st.total_confidence + val.conf,
            sensor_count := st.sensor_count + 1 }
      else
        { st with profile := { st.profile with
            features := st.profile.features ++ [(s.1, val)] } }
    match mitigationCall s.2 val with
    | .error _ => st
    | .ok m =>
      if m.truthy then
        { st with profile := { st.profile with
            mitigation_strategies :=
              st.profile.mitigation_strategies ++ [(s.1, m)] } }
      else st

/-- What the fetch collaborator hands back on success (lines 68–76
build `response_data` from it; `profile['headers']` takes a separate
copy of the same header mapping). -/
structure Fetched where
  status : Int
  headers : List (String × String)
  text : Html

/-- `WebAnalyzer.analyze_url` (lines 47–112).  A fetch failure
(`aiohttp.ClientError`, modelled by `.error`) is caught and the
initial profile returned; no exception propagates to the caller. -/
def analyzeUrl (url : String) (fetch : Except Unit Fetched)
    (wapp : Option (List (String × List String)))
    (netOk : Bool) (netStatus : Int) (netPage : Html) : Profile :=
  match fetch with
  | .error _ => initProfile url
  | .ok resp =>
    let rd : RawResp := ⟨resp.status, resp.headers, resp.text, url⟩
    let p0 := { initProfile url with
                  status_code := some resp.status, headers := resp.headers }
    let st :=
      (sensorList rd wapp netOk netStatus netPage).foldl runSensor
        ⟨p0, 0, 0, []⟩
    let oc := round2 (st.total_confidence / (st.sensor_count : ℚ))
    if st.sensor_count > 0 then
      { st.profile with overall_confidence := oc }
    else st.profile

/-- The invocation trace of one `analyze_url` call. -/
def analyzeUrlInvoked (url : String) (fetch : Except Unit Fetched)
    (wapp : Option (List (String × List String)))
    (netOk : Bool) (netStatus : Int) (netPage : Html) : List String :=
  match fetch with
  | .error _ => []
  | .ok resp =>
    let rd : RawResp := ⟨resp.status, resp.headers, resp.text, url⟩
    ((sensorList rd wapp netOk netStatus netPage).foldl runSensor
      ⟨{ initProfile url with
           status_code := some resp.status, headers := resp.headers }, 0, 0, []⟩).invoked

/-- Spec-side (declarative) reading of the aggregation rule: the
confidence values of the restriction-category sensors of a sensor
list whose `detect` executed successfully, in registry order. -/
def restrictionConfsOf (l : List (String × SensorIface)) : List ℚ :=
  (l.filter (fun s => restriction_names.contains s.1)).filterMap
    (fun s => (s.2.run.toOption).map DetectVal.conf)

/-- The same, for the registry run against one response. -/
def restrictionConfs (r : RawResp) (wapp : Option (List (String × List String)))
    (netOk : Bool) (netStatus : Int) (netPage : Html) : List ℚ :=
  restrictionConfsOf (sensorList r wapp netOk netStatus netPage)

/-- What the restriction detectors that executed successfully
contributed on one `analyze_url` call: nothing on a fetch failure
(no detector runs at all), the executed restriction confidences
otherwise. -/
def execRestrictionConfs (url : String) (fetch : Except Unit Fetched)
    (wapp : Option (List (String × List String)))
    (netOk : Bool) (netStatus : Int) (netPage : Html) : List ℚ :=
  match fetch with
  | .error _ => []
  | .ok resp =>
    restrictionConfs ⟨resp.status, resp.headers, resp.text, url⟩ wapp netOk
      netStatus netPage

/-! ## Claim inputs -/

/-- A body carrying a reCAPTCHA script tag. -/
def capPage : Html :=
  [.elem "html" [] [.elem "body" [] [
    .elem "script" [("src", "https://www.google.com/recaptcha/api.js")] []]]]

/-- A page with exactly one recognised login form and exactly one
OAuth affordance, the affordance being a button whose class
`btn-google` is in the `auth_patterns['oauth']['classes']` table. -/
def authClassPage : Html :=
  [.elem "html" [] [.elem "body" [] [
    .elem "form" [("method", "post"), ("action", "/login")] [
      .elem "input" [("type", "text"), ("name", "user")] [],
      .elem "input" [("type", "password"), ("name", "pass")] [],
      .elem "button" [("type", "submit")] [.textNode "Login"]],
    .elem "button" [("class", "btn-google")] [.textNode "Sign in with Google"]]]]

/-- The same login form, with the OAuth affordance instead a single
provider-named link (matching only the per-provider href query). -/
def authLinkPage : Html :=
  [.elem "html" [] [.elem "body" [] [
    .elem "form" [("method", "post"), ("action", "/login")] [
      .elem "input" [("type", "text"), ("name", "user")] [],
      .elem "input" [("type", "password"), ("name", "pass")] [],
      .elem "button" [("type", "submit")] [.textNode "Login"]],
    .elem "a" [("href", "https://accounts.google.com/o/oauth2/auth")]
      [.textNode "Google login"]]]]

/-- A page whose root `html` element declares `lang="en"`. -/
def langHtmlOnlyPage : Html := [.elem "html" [("lang", "en")] []]

/-- The same page with a later meta tag declaring French. -/
def langHtmlMetaPage : Html :=
  [.elem "html" [("lang", "en")] [.elem "head" [] [
    .elem "meta" [("name", "content-language"), ("content", "fr")] []]]]

/-- A bare meta tag declaring French (for the per-source lemmas). -/
def langMetaFrPage : Html :=
  [.elem "meta" [("name", "content-language"), ("content", "fr")] []]

/-! ## Helper lemmas -/

/-- `playStoreLoop` either returns its accumulator unchanged or stops
with the `KeyError` for the missing `'store_patterns'` table. -/
theorem playStoreLoop_cases (domain : String) (links : List Node)
    (i : MobileSensor.PlayStoreInfo) :
    MobileSensor.playStoreLoop domain links i = .ok i ∨
      MobileSensor.playStoreLoop domain links i =
        .error "KeyError: store_patterns" := by
  induction links with
  | nil => left; rfl
  | cons l ls ih =>
    unfold MobileSensor.playStoreLoop
    by_cases h : substrOf domain.toLower ((l.attrD "href" "").toLower) = true
    · right
      simp only [h]
      rfl
    · simp only [Bool.not_eq_true] at h
      simp only [h]
      simpa using ih

/-- A sensor whose `get_mitigation_strategy` takes no parameter
besides `self` never contributes to `mitigation_strategies`: the
orchestrator's call with one argument raises `TypeError`, which the
per-sensor `except` swallows. -/
theorem runSensor_mitigations (st : OrchState) (s : String × SensorIface)
    (h : s.2.mitigationParams = 0) :
    (runSensor st s).profile.mitigation_strategies =
      st.profile.mitigation_strategies := by
  cases hr : s.2.run with
  | error e => simp [runSensor, hr]
  | ok val =>
    simp only [runSensor, mitigationCall, hr, h]
    split
    · split <;> rfl
    · rename_i m heq
      simp at heq

/-- Folding the sensor loop over sensors that all declare a
no-parameter `get_mitigation_strategy` leaves the mitigation map
unchanged. -/
theorem foldl_mitigations (l : List (String × SensorIface)) (st : OrchState)
    (h : ∀ s ∈ l, s.2.mitigationParams = 0) :
    ((l.foldl runSensor st).profile.mitigation_strategies) =
      st.profile.mitigation_strategies := by
  induction l generalizing st with
  | nil => rfl
  | cons s ss ih =>
    rw [List.foldl_cons, ih _ (fun x hx => h x (List.mem_cons_of_mem s hx)),
      runSensor_mitigations st s (h s (List.mem_cons_self s ss))]

/-! ## Claim theorems -/

/-- C1.  The claim says every registered detector's `detect` never
raises and converts internal failures into an
`"Error processing response: …"` evidence entry.  The code violates
it: `LanguageSensor.detect` has no `try/except`, and on a response
whose `Content-Language` header key is not all lower-case the header
guard (membership in the lower-cased keys) passes while the body then
indexes the original dict with the lower-case name, raising
`KeyError: 'content-language'` which escapes `detect`
(lanaguage_sensor.py lines 55–63). -/
theorem C1_language_detect_raises_keyerror :
    LanguageSensor.detectAsOrchestrated
      ⟨200, [("Content-Language", "en")], [], "https://example.com"⟩ =
      .error "KeyError: content-language" := by with_unfolding_all rfl

/-- C4.  A fetch failure (`aiohttp.ClientError`) is caught at the top
of `analyze_url` and the initial profile is returned unchanged:
`status_code` is null, the restriction/feature/mitigation maps are
empty and `overall_confidence` is 0.0 (analyzer.py lines 57–65 and
109–112); `analyzeUrl` is total, so no exception reaches the caller. -/
theorem C4_fetch_failure_profile :
    ∀ (url : String) (wapp : Option (List (String × List String)))
      (netOk : Bool) (netStatus : Int) (netPage : Html),
      (analyzeUrl url (.error ()) wapp netOk netStatus netPage).status_code
          = none ∧
      (analyzeUrl url (.error ()) wapp netOk netStatus netPage).restrictions
          = [] ∧
      (analyzeUrl url (.error ()) wapp netOk netStatus netPage).features = [] ∧
      (analyzeUrl url (.error ()) wapp netOk netStatus
          netPage).mitigation_strategies = [] ∧
      (analyzeUrl url (.error ()) wapp netOk netStatus
          netPage).overall_confidence = 0 :=
  fun _ _ _ _ _ => ⟨rfl, rfl, rfl, rfl, rfl⟩

/-- C5.  The claim says a 429 response with no anti-bot headers or
phrases makes the AntiBot detector, invoked as the orchestrator
invokes it, report flag=true with confidence 0.8.  As orchestrated the
sensor receives the `response_data` *dict*, whose `hasattr` probes for
`headers`/`status_code`/`text` all fail, so the stored result is the
untouched initial one (flag=false, confidence 0.0) — while the same
sensor logic under attribute access (the second conjunct) behaves
exactly as the claim says, showing the dict/attribute wiring to be the
slip. -/
theorem C5_antibot_never_fires_as_orchestrated :
    (analyzeUrl "https://example.com" (.ok ⟨429, [], []⟩) none true 200
          []).restrictions.lookup "antibot" =
      some (.antibot ⟨false, [], 0, []⟩) ∧
    AntiBotSensor.detect (some []) (some 429) (some "") =
      ⟨true, ["Status 429"], 0.8, ["Response code 429: Too Many Requests"]⟩ :=
  ⟨by with_unfolding_all rfl, by with_unfolding_all rfl⟩

/-- C6 counterexample.  `authClassPage` exposes exactly one recognised
login form and exactly one OAuth affordance — a single button whose
class `btn-google` is an entry of the detector's own
`auth_patterns['oauth']['classes']` table — and no other auth
mechanism.  The claim says such a response yields exactly 2 distinct
auth types and confidence 0.6; the code instead attributes the generic
class match to all four configured providers (auth_sensor.py lines
119–123), reporting 5 auth types and confidence 1.0. -/
theorem C6_counterexample_generic_class_all_providers :
    (AuthSensor.detect [] authClassPage).auth_type =
      ["login_form", "Found OAuth provider: google",
       "Found OAuth provider: facebook", "Found OAuth provider: twitter",
       "Found OAuth provider: github"] ∧
    (AuthSensor.detect [] authClassPage).confidence = 1 :=
  ⟨by with_unfolding_all rfl, by with_unfolding_all rfl⟩

/-- C6 as amended.  The confidence rule is count-based as claimed —
for every input, `confidence = round(min(1.0, 0.3 · len(auth_type)), 2)`
— but the "exactly 2 types, 0.6" outcome holds only when the single
OAuth affordance matches a provider-specific query alone (as in
`authLinkPage`, a provider-named link href): an affordance matching
the generic class/link tables is counted once per configured
provider. -/
theorem C6_amended_count_based_confidence :
    (∀ (headers : List (String × String)) (doc : Html),
      (AuthSensor.detect headers doc).confidence =
        round2 (min 1 (((AuthSensor.detect headers doc).auth_type.length : ℚ)
          * 0.3))) ∧
    (AuthSensor.detect [] authLinkPage).auth_type =
      ["login_form", "Found OAuth provider: google"] ∧
    (AuthSensor.detect [] authLinkPage).confidence = 0.6 := by
  refine ⟨?_, by with_unfolding_all rfl, by with_unfolding_all rfl⟩
  intro headers doc
  simp only [AuthSensor.detect]

/-- C7 counterexample.  The claim says no detector changes any header
entry of the Raw Response.  `MobileSensor.detect` mutates the response
in place (mobile_sensor.py lines 179–182): on a response without a
`User-Agent` header key, the headers mapping differs after the
invocation. -/
theorem C7_counterexample_mobile_mutates_headers :
    (MobileSensor.detect ⟨200, [], [], "https://example.com"⟩
        "https://example.com" none true 200 []).2.headers ≠
      ([] : List (String × String)) := by
  with_unfolding_all decide

/-- C7 as amended.  For every input, the Mobile detector leaves the
response's `url`, `status_code` and body untouched and changes the
headers mapping in exactly one way: when the exact key `User-Agent` is
absent it appends the sensor's own user-agent string under that key,
and otherwise the headers are unchanged.  (Every other sensor reads
the response without writing to it.) -/
theorem C7_amended_mobile_header_effect :
    ∀ (r : RawResp) (url : String)
      (wapp : Option (List (String × List String)))
      (netOk : Bool) (netStatus : Int) (netPage : Html),
      (MobileSensor.detect r url wapp netOk netStatus netPage).2 =
        { r with headers :=
            if dictHasKey r.headers "User-Agent" then r.headers
            else r.headers ++ [("User-Agent", MobileSensor.user_agent)] } :=
  fun _ _ _ _ _ _ => rfl

/-- C8 counterexample.  On `langHtmlOnlyPage` the HTML-attribute
source records `en` with confidence 1.0; adding a later meta tag
declaring `fr` (`langHtmlMetaPage`) makes the meta source — whose
confidence is only 0.8 — replace the recorded language: the final
result is `fr` at 0.8, so a lower-confidence source did replace a
higher-confidence `detected_language`, contradicting the claim. -/
theorem C8_counterexample_meta_overwrites_html :
    LanguageSensor.detect [] langHtmlOnlyPage "" =
      .ok ⟨some "en", false, [], 1, ["Found language in HTML lang: English"]⟩ ∧
    LanguageSensor.detect [] langHtmlMetaPage "" =
      .ok ⟨some "fr", false, [], 0.8,
        ["Found language in HTML lang: English",
         "Found language in meta tag: French"]⟩ :=
  ⟨by with_unfolding_all rfl, by with_unfolding_all rfl⟩

/-- C8 as amended.  Each matching source overwrites
`detected_language` unconditionally, regardless of the confidence
already recorded: the meta source assigns confidence 0.8 outright
(first conjunct, for every prior state), while the URL-parameter
source overwrites the language but combines confidence with `max`
(second conjunct). -/
theorem C8_amended_unconditional_overwrite :
    (∀ s : LanguageSensor.Result,
      LanguageSensor.metaPass langMetaFrPage s =
        { s with detected_language := some "fr", confidence := 0.8,
                 details := s.details ++
                   ["Found language in meta tag: French"] }) ∧
    (∀ s : LanguageSensor.Result,
      LanguageSensor.urlParamPass "https://example.com/?lang=de" s =
        { s with detected_language := some "de",
                 confidence := max s.confidence 0.8,
                 details := s.details ++
                   ["Found language in URL parameter: German"] }) :=
  ⟨fun _ => by with_unfolding_all rfl, fun _ => by with_unfolding_all rfl⟩

/-- C10.  For every domain and every outcome of the Play Store search
request, `_check_play_store` reports no app: on the only path that
could set `has_app`, the body first reads
`self.mobile_patterns['store_patterns']` — a key absent from the
pattern mapping built in `__init__` — and the `KeyError` is caught by
the surrounding `except`, which converts it into the no-app outcome
(mobile_sensor.py lines 130–160). -/
theorem C10_play_store_never_finds_app :
    ∀ (domain : String) (netOk : Bool) (netStatus : Int) (netPage : Html),
      (MobileSensor.checkPlayStore domain netOk netStatus netPage).has_app
          = false ∧
      (MobileSensor.checkPlayStore domain netOk netStatus netPage).app_id
          = none := by
  intro domain netOk netStatus netPage
  have hbody : MobileSensor.checkPlayStoreBody domain netOk netStatus netPage =
        .ok MobileSensor.initPlayStore ∨
      MobileSensor.checkPlayStoreBody domain netOk netStatus netPage =
        .error "KeyError: store_patterns" ∨
      MobileSensor.checkPlayStoreBody domain netOk netStatus netPage =
        .error "ClientError" := by
    cases netOk with
    | false => exact .inr (.inr rfl)
    | true =>
      by_cases hs : (netStatus == 200) = true
      · rcases playStoreLoop_cases domain
          (findAll netPage (fun n =>
            n.tagAttrMatchesRe "a" "href" ["/store/apps/details"] false))
          MobileSensor.initPlayStore with h | h
        · exact .inl (by simpa [MobileSensor.checkPlayStoreBody, hs] using h)
        · exact .inr (.inl
            (by simpa [MobileSensor.checkPlayStoreBody, hs] using h))
      · simp only [Bool.not_eq_true] at hs
        exact .inl (by simp only [MobileSensor.checkPlayStoreBody, hs]; rfl)
  rcases hbody with h | h | h <;>
    simp [MobileSensor.checkPlayStore, h, MobileSensor.initPlayStore]


/-- One loop iteration's effect on the confidence accumulators, on the
untouched `overall_confidence` field, and on the invocation trace. -/
theorem runSensor_accumulators (st : OrchState) (s : String × SensorIface) :
    (runSensor st s).total_confidence =
        st.total_confidence + (restrictionConfsOf [s]).sum ∧
      (runSensor st s).sensor_count =
        st.sensor_count + (restrictionConfsOf [s]).length ∧
      (runSensor st s).profile.overall_confidence =
        st.profile.overall_confidence ∧
      (runSensor st s).invoked = st.invoked ++ [s.1] := by
  by_cases hm : s.1 ∈ restriction_names
  · cases hr : s.2.run with
    | error e =>
      simp [runSensor, restrictionConfsOf, hr, hm, Except.toOption]
    | ok val =>
      simp only [runSensor, mitigationCall, hr]
      have hc : restriction_names.contains s.1 = true := by
        simpa using hm
      simp only [hc, if_true]
      have hl : restrictionConfsOf [s] = [val.conf] := by
        simp [restrictionConfsOf, hr, hm, Except.toOption]
      rw [hl]
      split
      · simp
      · split <;> simp
  · cases hr : s.2.run with
    | error e =>
      simp [runSensor, restrictionConfsOf, hr, hm, Except.toOption]
    | ok val =>
      simp only [runSensor, mitigationCall, hr]
      have hc : restriction_names.contains s.1 = false := by
        simpa using hm
      simp only [hc, Bool.false_eq_true, if_false]
      have hl : restrictionConfsOf [s] = [] := by
        simp [restrictionConfsOf, hr, hm, Except.toOption]
      rw [hl]
      split
      · simp
      · split <;> simp

/-- Splitting the head off the declarative confidence list. -/
theorem restrictionConfsOf_cons (s : String × SensorIface)
    (ss : List (String × SensorIface)) :
    restrictionConfsOf (s :: ss) =
      restrictionConfsOf [s] ++ restrictionConfsOf ss := by
  by_cases hm : s.1 ∈ restriction_names <;>
    simp only [restrictionConfsOf, List.filter_cons, hm, decide_True,
      decide_False, if_true, if_false, List.filterMap_cons, List.filterMap_nil,
      List.filterMap_append, List.nil_append] <;>
    cases ho : s.2.run.toOption <;>
    simp [ho, hm]

/-- The sensor loop accumulates exactly the sum and count of the
executed restriction confidences, never touches the profile's
`overall_confidence`, and invokes every listed sensor in order. -/
theorem foldl_accumulators (l : List (String × SensorIface)) (st : OrchState) :
    ((l.foldl runSensor st).total_confidence =
        st.total_confidence + (restrictionConfsOf l).sum) ∧
      ((l.foldl runSensor st).sensor_count =
        st.sensor_count + (restrictionConfsOf l).length) ∧
      ((l.foldl runSensor st).profile.overall_confidence =
        st.profile.overall_confidence) ∧
      ((l.foldl runSensor st).invoked = st.invoked ++ l.map Prod.fst) := by
  induction l generalizing st with
  | nil => simp [restrictionConfsOf]
  | cons s ss ih =>
    obtain ⟨h1, h2, h3, h4⟩ := runSensor_accumulators st s
    obtain ⟨g1, g2, g3, g4⟩ := ih (runSensor st s)
    rw [restrictionConfsOf_cons]
    refine ⟨?_, ?_, ?_, ?_⟩
    · rw [List.foldl_cons, g1, h1]
      simp [add_assoc]
    · rw [List.foldl_cons, g2, h2]
      simp [Nat.add_assoc]
    · rw [List.foldl_cons, g3, h3]
    · rw [List.foldl_cons, g4, h4]
      simp

/-- C3.  `overall_confidence` equals the 2-decimal rounding of the
mean of the confidences of the restriction-category detectors whose
`detect` executed successfully (the declarative reading,
`execRestrictionConfs`), and 0.0 when no restriction detector
executed — in particular on a fetch failure, where no detector runs
(analyzer.py lines 82–107). -/
theorem C3_overall_confidence_is_rounded_mean :
    ∀ (url : String) (fetch : Except Unit Fetched)
      (wapp : Option (List (String × List String)))
      (netOk : Bool) (netStatus : Int) (netPage : Html),
      (analyzeUrl url fetch wapp netOk netStatus netPage).overall_confidence =
        if (execRestrictionConfs url fetch wapp netOk netStatus netPage).length
            = 0 then 0
        else round2
          ((execRestrictionConfs url fetch wapp netOk netStatus netPage).sum /
            ((execRestrictionConfs url fetch wapp netOk netStatus
              netPage).length : ℚ)) := by
  intro url fetch wapp nO nS nP
  cases fetch with
  | error e => rfl
  | ok resp =>
    obtain ⟨h1, h2, h3, -⟩ := foldl_accumulators
      (sensorList ⟨resp.status, resp.headers, resp.text, url⟩ wapp nO nS nP)
      ⟨⟨url, some resp.status, resp.headers, [], [], [], 0⟩, 0, 0, []⟩
    simp only [analyzeUrl, execRestrictionConfs, restrictionConfs]
    by_cases hz :
        (restrictionConfsOf
          (sensorList ⟨resp.status, resp.headers, resp.text, url⟩ wapp nO nS
            nP)).length = 0
    · rw [if_pos hz]
      simp [h2, h3, hz, initProfile]
    · rw [if_neg hz]
      simp [h1, h2, h3, Nat.pos_of_ne_zero hz, initProfile]

set_option maxRecDepth 100000

/-- C2.  The claim says each flagged detector's mitigation strategy is
stored under its key.  In fact the mitigation map of every `analyze`
call is empty: analyzer.py line 98 calls
`sensor.get_mitigation_strategy(result)` with one positional argument,
but every sensor defines the method with no parameter besides `self`,
so the call raises `TypeError`, which the per-sensor `except` swallows
after the detection result was already stored.  The second conjunct
evaluates a run whose captcha detector is flagged (confidence 1.0) and
whose mitigation map is nonetheless empty by the first conjunct. -/
theorem C2_mitigations_never_stored :
    (∀ (url : String) (fetch : Except Unit Fetched)
       (wapp : Option (List (String × List String)))
       (netOk : Bool) (netStatus : Int) (netPage : Html),
      (analyzeUrl url fetch wapp netOk netStatus
        netPage).mitigation_strategies = []) ∧
    (analyzeUrl "https://example.com"
        (.ok ⟨200, [("Content-Type", "text/html")], capPage⟩) none true 200
        []).restrictions.lookup "captcha" =
      some (.cap ⟨true, some "recaptcha", 1,
        ["Found www.google.com/recaptcha script", "Found keyword: captcha"]⟩) := by
  constructor
  · intro url fetch wapp nO nS nP
    cases fetch with
    | error e => rfl
    | ok resp =>
      have hall : ∀ s ∈ sensorList ⟨resp.status, resp.headers, resp.text, url⟩
          wapp nO nS nP, s.2.mitigationParams = 0 := by
        intro s hs
        simp only [sensorList, List.mem_cons, List.not_mem_nil, or_false] at hs
        rcases hs with h | h | h | h | h | h <;> subst h <;> rfl
      have hm := foldl_mitigations
        (sensorList ⟨resp.status, resp.headers, resp.text, url⟩ wapp nO nS nP)
        ⟨⟨url, some resp.status, resp.headers, [], [], [], 0⟩, 0, 0, []⟩ hall
      simp only [analyzeUrl, initProfile]
      split <;> simpa using hm
  · with_unfolding_all rfl

/-- C9 counterexample.  The claim says the registry holds exactly the
seven variants Captcha, AntiBot, JavaScript, Auth, API, Language and
Mobile.  `WebAnalyzer.__init__` (analyzer.py lines 38–45) registers
only six sensors: the Auth detector exists in the repository but is
never imported or registered, so the registry has six keys and no
`auth` key. -/
theorem C9_counterexample_registry_has_six_keys :
    ((sensorList ⟨200, [], [], ""⟩ none true 200 []).map Prod.fst).length = 6 ∧
    ¬ ((sensorList ⟨200, [], [], ""⟩ none true 200 []).map
        Prod.fst).contains "auth" := by
  constructor
  · rfl
  · with_unfolding_all decide

/-- C9 as amended.  The registry is fixed at construction and consists
of exactly the six variants Captcha, JavaScript, AntiBot, Language,
API and Mobile under distinct keys, and every `analyze` call that
obtains a response invokes every registered detector, in registry
order. -/
theorem C9_amended_six_sensors_all_invoked :
    ∀ (url : String) (resp : Fetched)
      (wapp : Option (List (String × List String)))
      (netOk : Bool) (netStatus : Int) (netPage : Html),
      (sensorList ⟨resp.status, resp.headers, resp.text, url⟩ wapp netOk
          netStatus netPage).map Prod.fst =
        ["captcha", "javascript", "antibot", "language", "api", "mobile"] ∧
      (["captcha", "javascript", "antibot", "language", "api",
        "mobile"] : List String).Nodup ∧
      analyzeUrlInvoked url (.ok resp) wapp netOk netStatus netPage =
        ["captcha", "javascript", "antibot", "language", "api", "mobile"] := by
  intro url resp wapp nO nS nP
  refine ⟨rfl, by decide, ?_⟩
  have h4 := (foldl_accumulators
    (sensorList ⟨resp.status, resp.headers, resp.text, url⟩ wapp nO nS nP)
    ⟨⟨url, some resp.status, resp.headers, [], [], [], 0⟩, 0, 0, []⟩).2.2.2
  simp only [analyzeUrlInvoked, initProfile]
  simpa [sensorList] using h4
